import Mathlib

/-!
Shallow embedding of the orchestration logic of the ORB-SLAM3 ROS2 wrapper
stereo node (`src/orb_slam3_ros2_wrapper/src/Stereo/stereo-slam-node.cpp`).

Each callback, timer handler and service handler of `StereoSlamNode` is
modelled as a pure function from the node's mutable member state (and the
incoming message, plus the current wall-clock time in milliseconds where the
code reads a clock) to the updated state together with the list of observable
effects the body performs, in program order: calls into the tracking engine
(`ORBSLAM3Interface`), transform broadcasts, topic publications, and the
rate-limited warning.  The tracking engine itself is an opaque collaborator
and is modelled as a record of oracle functions.
-/

/-- A message header; only the timestamp is read by the node. -/
structure Header where
  stamp : Nat
  deriving Repr, DecidableEq

/-- A stereo image message: header plus opaque pixel payload (passed through
to the tracking engine, never inspected by the node). -/
structure Image where
  header : Header
  data : List Nat
  deriving Repr, DecidableEq

/-- A 6-DOF pose (position plus quaternion orientation).  The node copies
poses verbatim and never does arithmetic on them, so exact integer components
stand in for the message's floating-point fields. -/
structure Pose where
  px : Int := 0
  py : Int := 0
  pz : Int := 0
  ox : Int := 0
  oy : Int := 0
  oz : Int := 0
  ow : Int := 1
  deriving Repr, DecidableEq

/-- An odometry message (`nav_msgs::msg::Odometry`); forwarded opaquely to the
engine by `OdomCallback`. -/
structure Odometry where
  header : Header
  pose : Pose
  deriving Repr, DecidableEq

/-- The `geometry_msgs::msg::TransformStamped` message.  A default-constructed ROS2
message has empty frame ids, zero translation and identity rotation (the
`Quaternion` message declares a default of 1 for `w`). -/
structure TransformStamped where
  frame_id : String := ""
  child_frame_id : String := ""
  tx : Int := 0
  ty : Int := 0
  tz : Int := 0
  qx : Int := 0
  qy : Int := 0
  qz : Int := 0
  qw : Int := 1
  deriving Repr, DecidableEq

/-- The `sensor_msgs::msg::PointCloud2` message; the node only reads `data.size()` and
(in a log line) `width * height`. -/
structure PointCloud2 where
  width : Nat := 0
  height : Nat := 0
  data : List Nat := []
  deriving Repr, DecidableEq

/-- The `geometry_msgs::msg::PoseStamped` message as built in `getMapPointsInViewServer`. -/
structure PoseStamped where
  stamp : Nat
  frame_id : String
  pose : Pose
  deriving Repr, DecidableEq

/-- A 3-vector (`Eigen::Vector3f`); integer components as exact stand-ins. -/
structure Vector3f where
  x : Int
  y : Int
  z : Int
  deriving Repr, DecidableEq

/-- An engine map point (`ORB_SLAM3::MapPoint`); the node only calls
`GetWorldPos()` on it. -/
structure MapPoint where
  worldPos : Vector3f
  deriving Repr, DecidableEq

/-- The `slam_msgs::msg::MapPoint` message: the public landmark representation, position
only, as filled in by `getMapPointsInViewServer`. -/
structure MapPointMsg where
  position : Vector3f
  deriving Repr, DecidableEq

/-- The `slam_msgs::msg::MapData` message; produced by the engine's `mapDataToMsg` and
published or returned verbatim, so it is opaque to the node. -/
structure MapData where
  tag : Nat := 0
  deriving Repr, DecidableEq

/-- The `slam_msgs::srv::GetMap::Request` message: the filters `tracked_points`
(full landmark detail) and `kf_id_for_landmarks` (keyframe restriction). -/
structure GetMapRequest where
  tracked_points : Bool
  kf_id_for_landmarks : List Int
  deriving Repr, DecidableEq

/-- The `slam_msgs::srv::GetMap::Response` message. -/
structure GetMapResponse where
  data : MapData
  deriving Repr, DecidableEq

/-- The `slam_msgs::srv::GetLandmarksInView::Request` message: a candidate pose. -/
structure GetLandmarksInViewRequest where
  pose : Pose
  deriving Repr, DecidableEq

/-- The `slam_msgs::srv::GetLandmarksInView::Response` message: landmark position list. -/
structure GetLandmarksInViewResponse where
  map_points : List MapPointMsg
  deriving Repr, DecidableEq

/-- The tracking engine (`ORBSLAM3Interface`), the opaque collaborator the
node calls into.  Each field models one member function used by
stereo-slam-node.cpp; the results are supplied by this oracle and the node
only routes them.  `vector3fORBToROS` and `MapPointsToPCL` live on the
engine's type-conversion helper (`getTypeConversionPtr()`). -/
structure Interface where
  trackStereo : Image → Image → Bool × Pose
  getMapToOdomTF : Odometry → TransformStamped
  getDirectMapToRobotTF : Header → TransformStamped
  getCurrentMapPoints : PointCloud2
  mapDataToMsg : Bool → Bool → List Int → MapData
  mapPointsVisibleFromPose : Pose → Nat → Rat → Rat → List MapPoint
  vector3fORBToROS : Vector3f → Vector3f
  MapPointsToPCL : List MapPoint → PointCloud2

/-- The startup-resolved configuration read by the modelled handlers. -/
structure Params where
  no_odometry_mode : Bool
  publish_tf : Bool
  ros_visualization : Bool
  global_frame : String
  deriving Repr, DecidableEq

/-- The node's mutable member state shared across callbacks:
`isTracked_`, `frequency_tracker_count_`, `frequency_tracker_clock_` (in
milliseconds), `tfMapOdom_`, and the last time the throttled odometry warning
fired (the hidden state of `RCLCPP_WARN_THROTTLE`, `none` before the first
emission). -/
structure NodeState where
  isTracked : Bool
  frequency_tracker_count : Nat
  frequency_tracker_clock : Nat
  tfMapOdom : TransformStamped
  lastWarnTime : Option Nat
  deriving Repr, DecidableEq

/-- One observable effect of a handler body, in program order: a call into
the tracking engine, a transform broadcast, a topic publication, the
throttled warning, or the tracking-frequency log line (recorded with the
numerator and denominator of the logged division). -/
inductive Effect where
  | callTrackStereo (l r : Image)
  | callGetMapToOdomTF (o : Odometry)
  | callGetDirectMapToRobotTF (h : Header)
  | callGetCurrentMapPoints
  | callMapDataToMsg (currentlyActive trackedPoints : Bool) (kfIds : List Int)
  | callMapPointsVisibleFromPose (p : Pose) (maxCount : Nat) (maxDistance maxAngle : Rat)
  | sendTransform (t : TransformStamped)
  | publishMapPointsMsg (c : PointCloud2)
  | publishMapDataMsg (m : MapData)
  | publishVisibleLandmarks (c : PointCloud2)
  | publishVisibleLandmarksPose (p : PoseStamped)
  | warnThrottled
  | logTrackingFrequency (count : Nat) (elapsed : Nat)
  deriving Repr, DecidableEq

/-- Modelled from the spec: the class header declaring the member fields is
not under `src/`, so their initial values are taken from the spec ("tracking
must have succeeded at least once before periodic publishers or transform
broadcast produce output" — the flag starts false) and from default member
construction of the ROS message (`tfMapOdom_` starts as a default
`TransformStamped`; no throttled warning has fired yet).  The counter and
clock initialisation follows the constructor (lines 92-93 of the source). -/
def initState (startTime : Nat) : NodeState :=
  { isTracked := false
    frequency_tracker_count := 0
    frequency_tracker_clock := startTime
    tfMapOdom := {}
    lastWarnTime := none }

/-- Embeds `StereoSlamNode::OdomCallback` (source lines 115-124): when
`no_odometry_mode_` is false and `publish_tf_` is true, forwards the sample to
`interface_->getMapToOdomTF`, which writes the cached `tfMapOdom_`; otherwise
emits the throttled warning (`RCLCPP_WARN_THROTTLE`, 4000 ms) and discards
the sample.  No branch broadcasts. -/
def OdomCallback (p : Params) (i : Interface) (now : Nat) (msgOdom : Odometry)
    (s : NodeState) : NodeState × List Effect :=
  if !p.no_odometry_mode && p.publish_tf then
    ({ s with tfMapOdom := i.getMapToOdomTF msgOdom },
     [Effect.callGetMapToOdomTF msgOdom])
  else
    match s.lastWarnTime with
    | none => ({ s with lastWarnTime := some now }, [Effect.warnThrottled])
    | some t =>
      if 4000 ≤ now - t then ({ s with lastWarnTime := some now }, [Effect.warnThrottled])
      else (s, [])

/-- Embeds `StereoSlamNode::StereoCallback` (source lines 126-147): calls
`interface_->trackStereo`; on success sets `isTracked_`, then (if
`publish_tf_`) recomputes `tfMapOdom_` via `getDirectMapToRobotTF` when in
no-odometry mode and broadcasts `tfMapOdom_`, and finally increments
`frequency_tracker_count_`.  On failure nothing happens beyond the tracking
call itself. -/
def StereoCallback (p : Params) (i : Interface) (msgLeft msgRight : Image)
    (s : NodeState) : NodeState × List Effect :=
  if (i.trackStereo msgLeft msgRight).1 then
    let s1 := { s with isTracked := true }
    let step :=
      if p.publish_tf then
        if p.no_odometry_mode then
          let tf := i.getDirectMapToRobotTF msgLeft.header
          ({ s1 with tfMapOdom := tf },
           [Effect.callGetDirectMapToRobotTF msgLeft.header, Effect.sendTransform tf])
        else
          (s1, [Effect.sendTransform s1.tfMapOdom])
      else (s1, ([] : List Effect))
    ({ step.1 with frequency_tracker_count := step.1.frequency_tracker_count + 1 },
     Effect.callTrackStereo msgLeft msgRight :: step.2)
  else
    (s, [Effect.callTrackStereo msgLeft msgRight])

/-- Embeds `StereoSlamNode::publishMapPointCloud` (source lines 149-196): gated on
`isTracked_`; fetches the current full map point cloud and returns without
publishing when `mapPCL.data.size() == 0`, otherwise publishes it. -/
def publishMapPointCloud (i : Interface) (s : NodeState) : NodeState × List Effect :=
  if s.isTracked then
    let mapPCL := i.getCurrentMapPoints
    if mapPCL.data.length = 0 then
      (s, [Effect.callGetCurrentMapPoints])
    else
      (s, [Effect.callGetCurrentMapPoints, Effect.publishMapPointsMsg mapPCL])
  else (s, [])

/-- Embeds `StereoSlamNode::publishMapData` (source lines 198-224): gated on
`isTracked_`; logs the tracking frequency (counter divided by wall time
elapsed since `frequency_tracker_clock_`), resets clock and counter, then
fetches map data via `mapDataToMsg(msg, true, false)` (keyframe ids default
to empty) and publishes it. -/
def publishMapData (i : Interface) (now : Nat) (s : NodeState) : NodeState × List Effect :=
  if s.isTracked then
    let mapDataMsg := i.mapDataToMsg true false []
    ({ s with frequency_tracker_clock := now, frequency_tracker_count := 0 },
     [Effect.logTrackingFrequency s.frequency_tracker_count (now - s.frequency_tracker_clock),
      Effect.callMapDataToMsg true false [],
      Effect.publishMapDataMsg mapDataMsg])
  else (s, [])

/-- Embeds `StereoSlamNode::getMapServer` (source lines 226-234): unconditionally
fetches map data via `mapDataToMsg(msg, false, request->tracked_points,
request->kf_id_for_landmarks)` and stores it in the response. -/
def getMapServer (i : Interface) (request : GetMapRequest) (s : NodeState) :
    NodeState × GetMapResponse × List Effect :=
  let mapDataMsg := i.mapDataToMsg false request.tracked_points request.kf_id_for_landmarks
  (s, { data := mapDataMsg },
   [Effect.callMapDataToMsg false request.tracked_points request.kf_id_for_landmarks])

/-- Embeds `StereoSlamNode::getMapPointsInViewServer` (source lines 236-269):
queries `mapPointsVisibleFromPose(request->pose, points, 1000, 5.0, 2.0)`,
converts each returned point's world position to the ROS convention and
collects it into the response, publishes the full result set as a point
cloud, and republishes the query pose stamped now with the literal frame id
"map".  The node's parameters are in scope but never read here. -/
def getMapPointsInViewServer (p : Params) (i : Interface) (now : Nat)
    (request : GetLandmarksInViewRequest) (s : NodeState) :
    NodeState × GetLandmarksInViewResponse × List Effect :=
  let points := i.mapPointsVisibleFromPose request.pose 1000 5 2
  let landmarks : List MapPointMsg :=
    points.map (fun pt => { position := i.vector3fORBToROS pt.worldPos })
  let cloud := i.MapPointsToPCL points
  let poseStamped : PoseStamped := { stamp := now, frame_id := "map", pose := request.pose }
  (s, { map_points := landmarks },
   [Effect.callMapPointsVisibleFromPose request.pose 1000 5 2,
    Effect.publishVisibleLandmarks cloud,
    Effect.publishVisibleLandmarksPose poseStamped])

/-- The transforms broadcast by a list of effects, in order. -/
def broadcasts (effs : List Effect) : List TransformStamped :=
  effs.filterMap fun e =>
    match e with
    | Effect.sendTransform t => some t
    | _ => none

/-- The point clouds published on the `map_points` topic, in order. -/
def publishedMapClouds (effs : List Effect) : List PointCloud2 :=
  effs.filterMap fun e =>
    match e with
    | Effect.publishMapPointsMsg c => some c
    | _ => none

/-- The map-data messages published on the `map_data` topic, in order. -/
def publishedMapData (effs : List Effect) : List MapData :=
  effs.filterMap fun e =>
    match e with
    | Effect.publishMapDataMsg m => some m
    | _ => none

/-- How many times the throttled warning was emitted. -/
def warnCount (effs : List Effect) : Nat :=
  effs.countP (fun e => e == Effect.warnThrottled)

/-- The odometry samples forwarded to the engine, in order. -/
def forwardedOdometry (effs : List Effect) : List Odometry :=
  effs.filterMap fun e =>
    match e with
    | Effect.callGetMapToOdomTF o => some o
    | _ => none

/-! Concrete fixtures used by counterexamples and witnesses. -/

/-- A concrete transform as the engine might cache for map→odom. -/
def tfA : TransformStamped := { frame_id := "map", child_frame_id := "odom", tx := 3 }

/-- A concrete non-empty point cloud. -/
def cloudA : PointCloud2 := { width := 2, height := 1, data := [1, 2, 3, 4] }

/-- A concrete engine oracle: tracking succeeds and the map is non-empty. -/
def ifaceA : Interface :=
  { trackStereo := fun _ _ => (true, {})
    getMapToOdomTF := fun _ => tfA
    getDirectMapToRobotTF := fun _ => { frame_id := "map", child_frame_id := "base", tx := 7 }
    getCurrentMapPoints := cloudA
    mapDataToMsg := fun _ _ _ => { tag := 5 }
    mapPointsVisibleFromPose := fun _ _ _ _ => [{ worldPos := { x := 1, y := 2, z := 3 } }]
    vector3fORBToROS := fun v => { x := v.z, y := -v.x, z := -v.y }
    MapPointsToPCL := fun pts => { width := pts.length, height := 1, data := [9] } }

/-- Like `ifaceA`, but the current map point cloud is empty and no landmarks
are visible. -/
def ifaceEmpty : Interface :=
  { ifaceA with
    getCurrentMapPoints := {}
    mapPointsVisibleFromPose := fun _ _ _ _ => [] }

/-- Like `ifaceA`, but tracking fails. -/
def ifaceFail : Interface :=
  { ifaceA with trackStereo := fun _ _ => (false, {}) }

/-- Composed-mode configuration: external odometry in use, tf published. -/
def paramsComposed : Params :=
  { no_odometry_mode := false
    publish_tf := true
    ros_visualization := true
    global_frame := "map" }

/-- Direct-mode configuration: no external odometry. -/
def paramsNoOdom : Params :=
  { paramsComposed with no_odometry_mode := true }

/-- A concrete stereo image message. -/
def imgA : Image := { header := { stamp := 0 }, data := [] }

/-- A concrete odometry message. -/
def odomA : Odometry := { header := { stamp := 0 }, pose := {} }

/-- A state in which tracking has succeeded at least once. -/
def trackedState : NodeState := { initState 0 with isTracked := true }

/-- A tracked state with a non-trivial counter and clock, for exercising the
frequency reset. -/
def busyState : NodeState :=
  { trackedState with frequency_tracker_count := 7, frequency_tracker_clock := 2 }

/-! The claim theorems. -/

/-- Claim C1 as stated is false on the code: in composed mode
(`no_odometry_mode` false, `publish_tf` true), a received odometry sample
emits no transform broadcast (it only updates the cached transform), while a
successful tracking result alone does broadcast. -/
theorem C1_counterexample :
    broadcasts (OdomCallback paramsComposed ifaceA 0 odomA (initState 0)).2 = [] ∧
    broadcasts (StereoCallback paramsComposed ifaceA imgA imgA (initState 0)).2 ≠ [] := by
  constructor
  · rfl
  · decide

/-- Claim C1 (amended): in composed mode with transform publication enabled,
every received odometry sample updates the cached map→odom transform with the
engine's correction without broadcasting it, and every successful tracking
result broadcasts the currently cached transform. -/
theorem C1_amended (p : Params) (i : Interface) (now : Nat) (o : Odometry)
    (l r : Image) (s : NodeState)
    (h1 : p.no_odometry_mode = false) (h2 : p.publish_tf = true)
    (h3 : (i.trackStereo l r).1 = true) :
    (OdomCallback p i now o s).1.tfMapOdom = i.getMapToOdomTF o ∧
    broadcasts (OdomCallback p i now o s).2 = [] ∧
    broadcasts (StereoCallback p i l r s).2 = [s.tfMapOdom] := by
  unfold OdomCallback StereoCallback
  simp [h1, h2, h3, broadcasts]

/-- Witness for C1_amended at a concrete configuration, engine and state. -/
theorem C1_witness :
    paramsComposed.no_odometry_mode = false ∧ paramsComposed.publish_tf = true ∧
    (ifaceA.trackStereo imgA imgA).1 = true ∧
    ((OdomCallback paramsComposed ifaceA 0 odomA (initState 0)).1.tfMapOdom =
        ifaceA.getMapToOdomTF odomA ∧
      broadcasts (OdomCallback paramsComposed ifaceA 0 odomA (initState 0)).2 = [] ∧
      broadcasts (StereoCallback paramsComposed ifaceA imgA imgA (initState 0)).2 =
        [(initState 0).tfMapOdom]) :=
  ⟨rfl, rfl, rfl,
   C1_amended paramsComposed ifaceA 0 odomA imgA imgA (initState 0) rfl rfl rfl⟩

/-- No branch of the odometry callback broadcasts a transform. -/
theorem odomCallback_no_broadcast (p : Params) (i : Interface) (now : Nat)
    (o : Odometry) (s : NodeState) :
    broadcasts (OdomCallback p i now o s).2 = [] := by
  unfold OdomCallback
  split
  · rfl
  · split
    · rfl
    · split <;> rfl

/-- A failed tracking invocation leaves the state untouched and performs only
the tracking call. -/
theorem stereoCallback_failure_eq (p : Params) (i : Interface) (l r : Image)
    (s : NodeState) (h : (i.trackStereo l r).1 = false) :
    StereoCallback p i l r s = (s, [Effect.callTrackStereo l r]) := by
  unfold StereoCallback
  simp [h]

/-- A successful tracking invocation always leaves the flag true. -/
theorem stereoCallback_success_isTracked (p : Params) (i : Interface) (l r : Image)
    (s : NodeState) (h : (i.trackStereo l r).1 = true) :
    (StereoCallback p i l r s).1.isTracked = true := by
  unfold StereoCallback
  simp only [h, if_true]
  split
  · split <;> rfl
  · rfl

/-- Claim C2 as stated is false on the code: starting from the initial state,
the first tracking success sets the flag, yet the landmark-cloud publisher's
next firing produces no output when the engine's point cloud is empty. -/
theorem C2_counterexample :
    (StereoCallback paramsComposed ifaceEmpty imgA imgA (initState 0)).1.isTracked = true ∧
    publishedMapClouds
      (publishMapPointCloud ifaceEmpty
        (StereoCallback paramsComposed ifaceEmpty imgA imgA (initState 0)).1).2 = [] := by
  constructor
  · rfl
  · rfl

/-- Claim C2 (amended): while the flag is false, both periodic publishers
publish nothing and no transform is broadcast (the odometry callback never
broadcasts, and a stereo cycle that leaves the flag false broadcasts
nothing); once the flag is true, the map-data publisher publishes on its next
firing, and the landmark-cloud publisher publishes on its next firing exactly
when the engine's point cloud is non-empty. -/
theorem C2_amended (p : Params) (i : Interface) (now tOdom : Nat) (o : Odometry)
    (l r : Image) (s : NodeState) :
    (s.isTracked = false →
      (publishMapPointCloud i s).2 = [] ∧
      (publishMapData i now s).2 = [] ∧
      broadcasts (OdomCallback p i tOdom o s).2 = [] ∧
      ((StereoCallback p i l r s).1.isTracked = false →
        broadcasts (StereoCallback p i l r s).2 = [])) ∧
    (s.isTracked = true →
      publishedMapData (publishMapData i now s).2 ≠ [] ∧
      (publishedMapClouds (publishMapPointCloud i s).2 ≠ [] ↔
        i.getCurrentMapPoints.data ≠ [])) := by
  constructor
  · intro hs
    refine ⟨?_, ?_, ?_, ?_⟩
    · simp [publishMapPointCloud, hs]
    · simp [publishMapData, hs]
    · exact odomCallback_no_broadcast p i tOdom o s
    · intro hpost
      by_cases htr : (i.trackStereo l r).1 = true
      · rw [stereoCallback_success_isTracked p i l r s htr] at hpost
        exact absurd hpost (by simp)
      · simp only [Bool.not_eq_true] at htr
        rw [stereoCallback_failure_eq p i l r s htr]
        rfl
  · intro hs
    constructor
    · simp [publishMapData, hs, publishedMapData]
    · unfold publishMapPointCloud
      by_cases hd : i.getCurrentMapPoints.data.length = 0
      · have hnil : i.getCurrentMapPoints.data = [] := List.length_eq_zero.mp hd
        simp [hs, hd, publishedMapClouds, hnil]
      · have hne : i.getCurrentMapPoints.data ≠ [] := by
          intro hnil; exact hd (by simp [hnil])
        simp [hs, hd, publishedMapClouds, hne]

/-- Witness for C2_amended: both phases at concrete states, with the
untracked-phase and tracked-phase implications discharged. -/
theorem C2_witness :
    (publishMapPointCloud ifaceA (initState 0)).2 = [] ∧
    (publishMapData ifaceA 5 (initState 0)).2 = [] ∧
    publishedMapData (publishMapData ifaceA 5 trackedState).2 ≠ [] :=
  ⟨((C2_amended paramsComposed ifaceA 5 0 odomA imgA imgA (initState 0)).1 rfl).1,
   ((C2_amended paramsComposed ifaceA 5 0 odomA imgA imgA (initState 0)).1 rfl).2.1,
   ((C2_amended paramsComposed ifaceA 5 0 odomA imgA imgA trackedState).2 rfl).1⟩

/-- Claim C3: when the tracking invocation reports failure, the stereo
callback leaves the whole node state unchanged, performs only the tracking
call itself, and broadcasts nothing. -/
theorem C3_failure_no_mutation (p : Params) (i : Interface) (l r : Image)
    (s : NodeState) (h : (i.trackStereo l r).1 = false) :
    StereoCallback p i l r s = (s, [Effect.callTrackStereo l r]) ∧
    broadcasts (StereoCallback p i l r s).2 = [] := by
  unfold StereoCallback
  simp [h, broadcasts]

/-- Witness for C3_failure_no_mutation with an engine whose tracking fails,
at a state with the flag already true and a cached transform. -/
theorem C3_witness :
    (ifaceFail.trackStereo imgA imgA).1 = false ∧
    (StereoCallback paramsNoOdom ifaceFail imgA imgA busyState =
        (busyState, [Effect.callTrackStereo imgA imgA]) ∧
      broadcasts (StereoCallback paramsNoOdom ifaceFail imgA imgA busyState).2 = []) :=
  ⟨rfl, C3_failure_no_mutation paramsNoOdom ifaceFail imgA imgA busyState rfl⟩

/-- Claim C4: with the flag true, a firing of the landmark-cloud publisher
makes no publish call at all when the fetched cloud has zero data bytes, and
publishes the fetched cloud when it is non-empty. -/
theorem C4_empty_cloud_suppresses (i : Interface) (s : NodeState)
    (h : s.isTracked = true) :
    (i.getCurrentMapPoints.data = [] →
      (publishMapPointCloud i s).2 = [Effect.callGetCurrentMapPoints]) ∧
    (i.getCurrentMapPoints.data ≠ [] →
      (publishMapPointCloud i s).2 =
        [Effect.callGetCurrentMapPoints,
         Effect.publishMapPointsMsg i.getCurrentMapPoints]) := by
  unfold publishMapPointCloud
  constructor <;> intro hd <;> simp [h, hd]

/-- Witness for C4_empty_cloud_suppresses: the empty-cloud engine suppresses
the publish, the non-empty one publishes. -/
theorem C4_witness :
    trackedState.isTracked = true ∧
    (publishMapPointCloud ifaceEmpty trackedState).2 = [Effect.callGetCurrentMapPoints] ∧
    (publishMapPointCloud ifaceA trackedState).2 =
      [Effect.callGetCurrentMapPoints, Effect.publishMapPointsMsg ifaceA.getCurrentMapPoints] :=
  ⟨rfl,
   (C4_empty_cloud_suppresses ifaceEmpty trackedState rfl).1 rfl,
   (C4_empty_cloud_suppresses ifaceA trackedState rfl).2 (by decide)⟩

/-- Claim C5: a map-data firing that publishes resets the frequency counter
to zero and the clock to now, whatever value the counter had, and the logged
estimate divides the counter accumulated since the previous firing by the
wall time elapsed since then. -/
theorem C5_frequency_reset (i : Interface) (now : Nat) (s : NodeState)
    (h : s.isTracked = true) :
    (publishMapData i now s).1.frequency_tracker_count = 0 ∧
    (publishMapData i now s).1.frequency_tracker_clock = now ∧
    Effect.logTrackingFrequency s.frequency_tracker_count (now - s.frequency_tracker_clock)
      ∈ (publishMapData i now s).2 ∧
    publishedMapData (publishMapData i now s).2 ≠ [] := by
  unfold publishMapData
  simp [h, publishedMapData]

/-- Witness for C5_frequency_reset at a state whose counter reached 7. -/
theorem C5_witness :
    busyState.isTracked = true ∧ busyState.frequency_tracker_count = 7 ∧
    ((publishMapData ifaceA 10 busyState).1.frequency_tracker_count = 0 ∧
      (publishMapData ifaceA 10 busyState).1.frequency_tracker_clock = 10 ∧
      Effect.logTrackingFrequency busyState.frequency_tracker_count
          (10 - busyState.frequency_tracker_clock)
        ∈ (publishMapData ifaceA 10 busyState).2 ∧
      publishedMapData (publishMapData ifaceA 10 busyState).2 ≠ []) :=
  ⟨rfl, rfl, C5_frequency_reset ifaceA 10 busyState rfl⟩

/-- Claim C6: the map-data service fetches map data with exactly the
request's filters, returns it in the response, leaves the state unchanged,
and its behaviour is the same in every state — in particular in states where
tracking has never succeeded. -/
theorem C6_get_map_server (i : Interface) (req : GetMapRequest) (s1 s2 : NodeState) :
    (getMapServer i req s1).2.1.data =
      i.mapDataToMsg false req.tracked_points req.kf_id_for_landmarks ∧
    (getMapServer i req s1).2.2 =
      [Effect.callMapDataToMsg false req.tracked_points req.kf_id_for_landmarks] ∧
    (getMapServer i req s1).1 = s1 ∧
    (getMapServer i req s1).2 = (getMapServer i req s2).2 :=
  ⟨rfl, rfl, rfl, rfl⟩

/-- Claim C7: the landmarks-in-view service queries the engine with the
fixed parameters 1000, 5.0 and 2.0, and its response holds exactly one
position-only entry per returned landmark, carrying that landmark's world
position (converted to the ROS axis convention). -/
theorem C7_landmarks_in_view_query (p : Params) (i : Interface) (now : Nat)
    (req : GetLandmarksInViewRequest) (s : NodeState) :
    Effect.callMapPointsVisibleFromPose req.pose 1000 5 2
      ∈ (getMapPointsInViewServer p i now req s).2.2 ∧
    (getMapPointsInViewServer p i now req s).2.1.map_points =
      (i.mapPointsVisibleFromPose req.pose 1000 5 2).map
        (fun pt => { position := i.vector3fORBToROS pt.worldPos }) ∧
    (getMapPointsInViewServer p i now req s).2.1.map_points.length =
      (i.mapPointsVisibleFromPose req.pose 1000 5 2).length := by
  refine ⟨?_, rfl, ?_⟩
  · simp [getMapPointsInViewServer]
  · simp [getMapPointsInViewServer]

/-- When the odometry gate is closed, the callback reduces to the throttled
warning logic. -/
theorem odomCallback_discard (p : Params) (i : Interface) (now : Nat) (o : Odometry)
    (s : NodeState) (hc : (!p.no_odometry_mode && p.publish_tf) = false) :
    OdomCallback p i now o s =
      match s.lastWarnTime with
      | none => ({ s with lastWarnTime := some now }, [Effect.warnThrottled])
      | some t =>
        if 4000 ≤ now - t then ({ s with lastWarnTime := some now }, [Effect.warnThrottled])
        else (s, []) := by
  unfold OdomCallback
  rw [hc]
  simp

/-- When the odometry gate is open, the callback forwards the sample and
caches the engine's correction. -/
theorem odomCallback_active (p : Params) (i : Interface) (now : Nat) (o : Odometry)
    (s : NodeState) (hc : (!p.no_odometry_mode && p.publish_tf) = true) :
    OdomCallback p i now o s =
      ({ s with tfMapOdom := i.getMapToOdomTF o }, [Effect.callGetMapToOdomTF o]) := by
  unfold OdomCallback
  rw [hc]
  simp

/-- Claim C8: when no-odometry mode is on or transform publication is off,
an odometry sample is discarded (no cached-transform update, no forwarding)
and the warning fires exactly when none has fired yet or at least 4000 ms
have passed since the last one — so two consecutive warnings are at least
4 seconds apart; otherwise the sample is forwarded and the cached map→odom
transform is updated, with no warning. -/
theorem C8_odom_gating (p : Params) (i : Interface) (t1 t2 : Nat) (o1 o2 : Odometry)
    (s : NodeState) :
    (p.no_odometry_mode = true ∨ p.publish_tf = false →
      (OdomCallback p i t1 o1 s).1.tfMapOdom = s.tfMapOdom ∧
      forwardedOdometry (OdomCallback p i t1 o1 s).2 = [] ∧
      (warnCount (OdomCallback p i t1 o1 s).2 =
        match s.lastWarnTime with
        | none => 1
        | some t => if 4000 ≤ t1 - t then 1 else 0) ∧
      (warnCount (OdomCallback p i t1 o1 s).2 = 1 →
        warnCount (OdomCallback p i t2 o2 (OdomCallback p i t1 o1 s).1).2 = 1 →
        t1 + 4000 ≤ t2)) ∧
    (p.no_odometry_mode = false ∧ p.publish_tf = true →
      (OdomCallback p i t1 o1 s).1.tfMapOdom = i.getMapToOdomTF o1 ∧
      forwardedOdometry (OdomCallback p i t1 o1 s).2 = [o1] ∧
      warnCount (OdomCallback p i t1 o1 s).2 = 0) := by
  constructor
  · intro hdisc
    have hc : (!p.no_odometry_mode && p.publish_tf) = false := by
      rcases hdisc with h | h <;> simp [h]
    rw [odomCallback_discard p i t1 o1 s hc]
    rcases hlw : s.lastWarnTime with _ | t
    · refine ⟨rfl, rfl, rfl, ?_⟩
      intro _ hw2
      rw [odomCallback_discard p i t2 o2 _ hc] at hw2
      by_cases h4 : 4000 ≤ t2 - t1
      · omega
      · simp [h4, warnCount] at hw2
    · by_cases h4 : 4000 ≤ t1 - t
      · refine ⟨?_, ?_, ?_, ?_⟩
        · simp [h4]
        · simp [h4, forwardedOdometry]
        · simp [h4, warnCount]
        · intro _ hw2
          rw [odomCallback_discard p i t2 o2 _ hc] at hw2
          by_cases h4b : 4000 ≤ t2 - t1
          · omega
          · simp [h4, h4b, warnCount] at hw2
      · refine ⟨?_, ?_, ?_, ?_⟩
        · simp [h4]
        · simp [h4, forwardedOdometry]
        · simp [h4, warnCount]
        · intro hw1
          simp [h4, warnCount] at hw1
  · intro hact
    have hc : (!p.no_odometry_mode && p.publish_tf) = true := by
      simp [hact.1, hact.2]
    rw [odomCallback_active p i t1 o1 s hc]
    exact ⟨rfl, rfl, rfl⟩

/-- Witness for C8_odom_gating: the discard branch at a no-odometry
configuration (first warning fires, cached transform untouched) and the
active branch at the composed configuration. -/
theorem C8_witness :
    (paramsNoOdom.no_odometry_mode = true ∨ paramsNoOdom.publish_tf = false) ∧
    ((OdomCallback paramsNoOdom ifaceA 0 odomA (initState 0)).1.tfMapOdom =
        (initState 0).tfMapOdom ∧
      forwardedOdometry (OdomCallback paramsNoOdom ifaceA 0 odomA (initState 0)).2 = [] ∧
      warnCount (OdomCallback paramsNoOdom ifaceA 0 odomA (initState 0)).2 = 1) ∧
    (paramsComposed.no_odometry_mode = false ∧ paramsComposed.publish_tf = true) ∧
    ((OdomCallback paramsComposed ifaceA 0 odomA (initState 0)).1.tfMapOdom =
        ifaceA.getMapToOdomTF odomA ∧
      forwardedOdometry (OdomCallback paramsComposed ifaceA 0 odomA (initState 0)).2 =
        [odomA] ∧
      warnCount (OdomCallback paramsComposed ifaceA 0 odomA (initState 0)).2 = 0) := by
  have hd := (C8_odom_gating paramsNoOdom ifaceA 0 1 odomA odomA (initState 0)).1
    (Or.inl rfl)
  have ha := (C8_odom_gating paramsComposed ifaceA 0 1 odomA odomA (initState 0)).2
    ⟨rfl, rfl⟩
  exact ⟨Or.inl rfl, ⟨hd.1, hd.2.1, hd.2.2.1⟩, ⟨rfl, rfl⟩, ha⟩

/-- Claim C9: in composed mode with transform publication enabled, a
successful tracking result broadcasts exactly the currently cached transform;
from the initial state — before any odometry sample has been processed — the
cached transform is the default-constructed one (empty frame ids, zero
translation, identity rotation), so that is what gets broadcast. -/
theorem C9_cached_default_broadcast (p : Params) (i : Interface) (l r : Image)
    (s : NodeState) (t0 : Nat)
    (h1 : p.no_odometry_mode = false) (h2 : p.publish_tf = true)
    (h3 : (i.trackStereo l r).1 = true) :
    broadcasts (StereoCallback p i l r s).2 = [s.tfMapOdom] ∧
    (initState t0).tfMapOdom = ({} : TransformStamped) ∧
    broadcasts (StereoCallback p i l r (initState t0)).2 = [({} : TransformStamped)] ∧
    ({} : TransformStamped).frame_id = "" ∧
    ({} : TransformStamped).child_frame_id = "" ∧
    ({} : TransformStamped).tx = 0 ∧ ({} : TransformStamped).qw = 1 := by
  refine ⟨?_, rfl, ?_, rfl, rfl, rfl, rfl⟩
  · unfold StereoCallback
    simp [h1, h2, h3, broadcasts]
  · unfold StereoCallback
    simp [h1, h2, h3, broadcasts, initState]

/-- Witness for C9_cached_default_broadcast: concrete composed-mode
configuration, a succeeding engine, and a state with a non-default cached
transform. -/
theorem C9_witness :
    paramsComposed.no_odometry_mode = false ∧ paramsComposed.publish_tf = true ∧
    (ifaceA.trackStereo imgA imgA).1 = true ∧
    (broadcasts (StereoCallback paramsComposed ifaceA imgA imgA
        { busyState with tfMapOdom := tfA }).2 = [{ busyState with tfMapOdom := tfA }.tfMapOdom] ∧
      (initState 3).tfMapOdom = ({} : TransformStamped) ∧
      broadcasts (StereoCallback paramsComposed ifaceA imgA imgA (initState 3)).2 =
        [({} : TransformStamped)] ∧
      ({} : TransformStamped).frame_id = "" ∧
      ({} : TransformStamped).child_frame_id = "" ∧
      ({} : TransformStamped).tx = 0 ∧ ({} : TransformStamped).qw = 1) :=
  ⟨rfl, rfl, rfl,
   C9_cached_default_broadcast paramsComposed ifaceA imgA imgA
     { busyState with tfMapOdom := tfA } 3 rfl rfl rfl⟩

/-- Claim C10: the landmarks-in-view service always publishes its
side-channel point cloud and the restamped query pose — for every engine
(including one returning zero landmarks) and every state (including untracked
ones) — and the republished pose is stamped now with the literal frame id
"map"; the handler's result does not depend on the configured parameters, in
particular not on the global frame. -/
theorem C10_side_channel (p q : Params) (i : Interface) (now : Nat)
    (req : GetLandmarksInViewRequest) (s : NodeState) :
    Effect.publishVisibleLandmarks
        (i.MapPointsToPCL (i.mapPointsVisibleFromPose req.pose 1000 5 2))
      ∈ (getMapPointsInViewServer p i now req s).2.2 ∧
    Effect.publishVisibleLandmarksPose { stamp := now, frame_id := "map", pose := req.pose }
      ∈ (getMapPointsInViewServer p i now req s).2.2 ∧
    getMapPointsInViewServer p i now req s = getMapPointsInViewServer q i now req s := by
  refine ⟨?_, ?_, rfl⟩
  · simp [getMapPointsInViewServer]
  · simp [getMapPointsInViewServer]
